import Mathlib

/-!
Verification of the `set-process-name` library (`src/index.js`).

The library is a small cross-platform dispatcher: it detects the JavaScript
runtime and the operating system, writes the desired name through the generic
`process.title` facility, cosmetically writes `process.argv0`, and on Linux
additionally invokes the native `prctl(PR_SET_NAME, ...)` facility through an
FFI bridge (Bun or Deno).  This file embeds that dispatch logic shallowly:
the ambient host is a record of the observations the code makes
(`typeof Deno`, `process.versions`, `process.platform`, how the title setter
behaves, whether the FFI library loads, what `prctl` returns), and each
exported function becomes a pure Lean function over that record.

Conventions of the embedding:
  * JavaScript strings are Lean `String`s; `name.slice(0, 15)` is modelled as
    taking the first 15 characters (exact for all names without surrogate
    pairs, which is every test input considered here).
  * A thrown `TypeError` is modelled as `Except.error` carrying the message.
  * `process.title` is modelled as a `String` field of the environment; the
    host's behavior when assigning it is a function `titleWrite` returning
    `none` when the assignment throws and `some stored` when the host stores
    the value `stored` (hosts may store a transformed value, e.g. truncate).
  * The Deno FFI handle cache is a performance detail with no observable
    effect on results and is not modelled.
-/

/-- Observable state of the host environment, as read and written by
`src/index.js`: presence of the `Deno` global and of `Deno.build.os`,
presence of `process` and the truthiness of `process.versions.bun` /
`process.versions.node`, the (truthy) value of `process.platform`, the
current `process.title` and `process.argv0` with their assignment behavior,
and the behavior of the native `prctl` facility reached over FFI. -/
structure Env where
  hasDeno : Bool
  denoBuildOs : Option String
  hasProcess : Bool
  versionsBun : Bool
  versionsNode : Bool
  procPlatform : Option String
  title : String
  titleWrite : String → Option String
  argv0 : String
  argv0Throws : Bool
  ffiLoadOk : Bool
  prctlRet : Int

/-- Result record returned by `setProcessName` / `setProcessNameSync`
(`SetProcessNameResult` in `src/index.d.ts`). -/
structure SetProcessNameResult where
  success : Bool
  processTitle : Option Bool
  prctl : Option Bool
  runtime : String
  platform : String
deriving DecidableEq, Repr

/-- Capability record returned by `getCapabilities`
(`Capabilities` in `src/index.d.ts`). -/
structure Capabilities where
  canSetTitle : Bool
  canSetPrctl : Bool
  runtime : String
  platform : String
deriving DecidableEq, Repr

/-- A JavaScript value passed as the `name` argument: the code only
distinguishes strings from every other value (`typeof name !== 'string'`). -/
inductive JSVal where
  | str (s : String)
  | num (n : Int)
  | null
  | undefined
  | obj
deriving DecidableEq, Repr

/-- True exactly on string-valued arguments (`typeof name === 'string'`). -/
def JSVal.isStr : JSVal → Bool
  | .str _ => true
  | _ => false

/-- `detectRuntime` from `src/index.js`: `Deno` global wins, then
`process.versions.bun`, then `process.versions.node`, else `'unknown'`. -/
def detectRuntime (e : Env) : String :=
  if e.hasDeno then "deno"
  else if e.hasProcess && e.versionsBun then "bun"
  else if e.hasProcess && e.versionsNode then "node"
  else "unknown"

/-- `detectPlatform` from `src/index.js`.  When `Deno.build` is available its
`os` field is mapped onto the four declared identifiers with a fallback to
`'unknown'`; otherwise, when `process.platform` is truthy, that string is
returned verbatim (note: without any normalisation); else `'unknown'`. -/
def detectPlatform (e : Env) : String :=
  match e.hasDeno, e.denoBuildOs with
  | true, some os =>
      if os = "linux" then "linux"
      else if os = "darwin" then "darwin"
      else if os = "windows" then "win32"
      else "unknown"
  | _, _ =>
      match e.hasProcess, e.procPlatform with
      | true, some p => p
      | _, _ => "unknown"

/-- The set of platform identifiers declared as the `Platform` type in
`src/index.d.ts` and in the JSDoc of `detectPlatform`. -/
def isDeclaredPlatform (s : String) : Bool :=
  s == "linux" || s == "darwin" || s == "win32" || s == "unknown"

/-- `name.slice(0, 15)`: the truncation both FFI helpers apply before
handing the name to the native facility. -/
def truncateForPrctl (name : String) : String :=
  (name.toList.take 15).asString

/-- The byte buffer built from `` `${truncatedName}\0` `` and handed to
`prctl`, as a list of characters ending in the NUL terminator. -/
def prctlBuffer (name : String) : List Char :=
  (truncateForPrctl name).toList ++ [Char.ofNat 0]

/-- Size in bytes of an encoded character buffer (both `Buffer.from` and
`TextEncoder` encode UTF-8). -/
def bufferByteSize (buf : List Char) : Nat :=
  (buf.map Char.utf8Size).sum

/-- The native facility call `prctl(PR_SET_NAME, buf)`: an external
collaborator, modelled by the environment's fixed return status. -/
def prctlCall (e : Env) (_buf : List Char) : Int :=
  e.prctlRet

/-- `setProcessNameLinuxBunFFI`: dynamically load libc over `bun:ffi`,
truncate, call `prctl`, report `result === 0`; any throw (including a failed
load) is caught and folded to `false`. -/
def setProcessNameLinuxBunFFI (e : Env) (name : String) : Bool :=
  if e.ffiLoadOk then prctlCall e (prctlBuffer name) == 0
  else false

/-- `setProcessNameLinuxDenoFFI`: same contract over `Deno.dlopen`; the
handle cache does not change the returned value. -/
def setProcessNameLinuxDenoFFI (e : Env) (name : String) : Bool :=
  if e.ffiLoadOk then prctlCall e (prctlBuffer name) == 0
  else false

/-- The `if (typeof process !== 'undefined') { ... }` block that appears
verbatim in both `setProcessName` and `setProcessNameSync`: assign
`process.title`, read it back (`processTitle = (process.title === name)`,
`false` when the assignment throws), then assign `process.argv0` with any
throw swallowed.  Returns the updated environment, the `processTitle` field
and the `success` value after this step. -/
def titleArgvStep (e : Env) (name : String) : Env × Option Bool × Bool :=
  if e.hasProcess then
    let afterTitle : Env × Option Bool × Bool :=
      match e.titleWrite name with
      | some stored => ({ e with title := stored }, some (stored == name), stored == name)
      | none => (e, some false, false)
    let e1 := afterTitle.1
    let e2 := if e.argv0Throws then e1 else { e1 with argv0 := name }
    (e2, afterTitle.2.1, afterTitle.2.2)
  else (e, none, false)

/-- Body of the async `setProcessName` after the type check: title/argv0
step, then on Linux the native step over Bun FFI or Deno FFI, with
`success = success || prctl` inside the attempted branch. -/
def setProcessNameStr (e : Env) (name : String) : SetProcessNameResult × Env :=
  let runtime := detectRuntime e
  let platform := detectPlatform e
  let step := titleArgvStep e name
  let prctl : Option Bool :=
    if platform == "linux" then
      if runtime == "bun" then some (setProcessNameLinuxBunFFI e name)
      else if runtime == "deno" then some (setProcessNameLinuxDenoFFI e name)
      else none
    else none
  let success := step.2.2 || prctl.getD false
  ({ success := success, processTitle := step.2.1, prctl := prctl,
     runtime := runtime, platform := platform }, step.1)

/-- Body of `setProcessNameSync` after the type check: identical to the
async body except that the native step only runs for Deno on Linux (Bun FFI
requires an async import, so `prctl` is never applied synchronously). -/
def setProcessNameSyncStr (e : Env) (name : String) : SetProcessNameResult × Env :=
  let runtime := detectRuntime e
  let platform := detectPlatform e
  let step := titleArgvStep e name
  let prctl : Option Bool :=
    if platform == "linux" && runtime == "deno" then
      some (setProcessNameLinuxDenoFFI e name)
    else none
  let success := step.2.2 || prctl.getD false
  ({ success := success, processTitle := step.2.1, prctl := prctl,
     runtime := runtime, platform := platform }, step.1)

/-- `setProcessName(name)`: throws `TypeError('Process name must be a
string')` on non-string arguments, otherwise runs the body and returns the
result record. -/
def setProcessName (e : Env) (v : JSVal) : Except String (SetProcessNameResult × Env) :=
  match v with
  | .str name => .ok (setProcessNameStr e name)
  | _ => .error "Process name must be a string"

/-- `setProcessNameSync(name)`: same type check, synchronous body. -/
def setProcessNameSync (e : Env) (v : JSVal) : Except String (SetProcessNameResult × Env) :=
  match v with
  | .str name => .ok (setProcessNameSyncStr e name)
  | _ => .error "Process name must be a string"

/-- `getProcessName()`: returns `process.title` when `process` exists and
the title is truthy (a non-empty string), else `null`. -/
def getProcessName (e : Env) : Option String :=
  if e.hasProcess && e.title != "" then some e.title else none

/-- `getCapabilities()`: `canSetTitle` iff `process` exists with a defined
`title` (in this model `process.title` is always a string when `process`
exists); `canSetPrctl` iff the platform is Linux and the runtime is Node or
Bun. -/
def getCapabilities (e : Env) : Capabilities :=
  let runtime := detectRuntime e
  let platform := detectPlatform e
  { canSetTitle := e.hasProcess,
    canSetPrctl := platform == "linux" && (runtime == "node" || runtime == "bun"),
    runtime := runtime, platform := platform }

/-- A host environment exposes the native rename facility when its runtime
provides an FFI bridge to `prctl`: Bun (`bun:ffi`) or Deno (`Deno.dlopen`),
the two bridges implemented by `setProcessNameLinuxBunFFI` and
`setProcessNameLinuxDenoFFI`. -/
def hasNativeFFIBridge (e : Env) : Bool :=
  detectRuntime e == "bun" || detectRuntime e == "deno"

/-- A Node.js-on-Linux host whose title facility stores names verbatim and
whose `prctl` facility is loadable and succeeds. -/
def envNodeLinux : Env where
  hasDeno := false
  denoBuildOs := none
  hasProcess := true
  versionsBun := false
  versionsNode := true
  procPlatform := some "linux"
  title := "node"
  titleWrite := fun n => some n
  argv0 := "node"
  argv0Throws := false
  ffiLoadOk := true
  prctlRet := 0

/-- A Bun-on-Linux host (Bun also populates `process.versions.node`). -/
def envBunLinux : Env where
  hasDeno := false
  denoBuildOs := none
  hasProcess := true
  versionsBun := true
  versionsNode := true
  procPlatform := some "linux"
  title := "bun"
  titleWrite := fun n => some n
  argv0 := "bun"
  argv0Throws := false
  ffiLoadOk := true
  prctlRet := 0

/-- A Deno-on-Linux host (`Deno` global present, no `process` object in this
model). -/
def envDenoLinux : Env where
  hasDeno := true
  denoBuildOs := some "linux"
  hasProcess := false
  versionsBun := false
  versionsNode := false
  procPlatform := none
  title := ""
  titleWrite := fun _ => none
  argv0 := ""
  argv0Throws := false
  ffiLoadOk := true
  prctlRet := 0

/-- A Node.js-on-macOS host. -/
def envNodeDarwin : Env where
  hasDeno := false
  denoBuildOs := none
  hasProcess := true
  versionsBun := false
  versionsNode := true
  procPlatform := some "darwin"
  title := "node"
  titleWrite := fun n => some n
  argv0 := "node"
  argv0Throws := false
  ffiLoadOk := false
  prctlRet := 0

/-- A Node.js host on a platform outside the declared `Platform` union
(`process.platform` can legitimately be `'freebsd'`, `'sunos'`, `'aix'`,
...). -/
def envNodeFreebsd : Env where
  hasDeno := false
  denoBuildOs := none
  hasProcess := true
  versionsBun := false
  versionsNode := true
  procPlatform := some "freebsd"
  title := "node"
  titleWrite := fun n => some n
  argv0 := "node"
  argv0Throws := false
  ffiLoadOk := false
  prctlRet := 0

example : detectRuntime envNodeLinux = "node" := by decide
example : detectPlatform envNodeLinux = "linux" := by decide
example : (setProcessNameStr envNodeLinux "my-service").1 =
    { success := true, processTitle := some true, prctl := none,
      runtime := "node", platform := "linux" } := by decide
example : (setProcessNameStr envBunLinux "my-service").1 =
    { success := true, processTitle := some true, prctl := some true,
      runtime := "bun", platform := "linux" } := by decide
example : (setProcessNameSyncStr envBunLinux "my-service").1.prctl = none := by decide
example : (setProcessNameStr envDenoLinux "my-service").1 =
    { success := true, processTitle := none, prctl := some true,
      runtime := "deno", platform := "linux" } := by decide

/-! ### Helper lemmas -/

/-- `detectRuntime` only ever returns one of the four declared runtime
tags. -/
theorem runtime_cases (e : Env) :
    detectRuntime e = "deno" ∨ detectRuntime e = "bun" ∨
    detectRuntime e = "node" ∨ detectRuntime e = "unknown" := by
  unfold detectRuntime
  split
  · exact Or.inl rfl
  · split
    · exact Or.inr (Or.inl rfl)
    · split
      · exact Or.inr (Or.inr (Or.inl rfl))
      · exact Or.inr (Or.inr (Or.inr rfl))

/-- The `prctl` field produced by the async entry point, as a function of
the detected platform and runtime. -/
theorem setProcessNameStr_prctl (e : Env) (name : String) :
    (setProcessNameStr e name).1.prctl =
      (if detectPlatform e == "linux" then
        if detectRuntime e == "bun" then some (setProcessNameLinuxBunFFI e name)
        else if detectRuntime e == "deno" then some (setProcessNameLinuxDenoFFI e name)
        else none
      else none) := rfl

/-- The `prctl` field produced by the sync entry point. -/
theorem setProcessNameSyncStr_prctl (e : Env) (name : String) :
    (setProcessNameSyncStr e name).1.prctl =
      (if detectPlatform e == "linux" && detectRuntime e == "deno" then
        some (setProcessNameLinuxDenoFFI e name)
      else none) := rfl

/-- After the title step, the running `success` flag is exactly "the title
mechanism reported `Some(true)`". -/
theorem titleArgvStep_success (e : Env) (name : String) :
    (titleArgvStep e name).2.2 = ((titleArgvStep e name).2.1 == some true) := by
  unfold titleArgvStep
  by_cases h : e.hasProcess
  · simp only [h, if_true]
    cases hw : e.titleWrite name with
    | none => simp
    | some stored =>
      simp only [hw]
      cases hb : stored == name <;> simp [hb]
  · simp [h]

/-- Folding an optional mechanism outcome with `getD false` is the same as
testing it against `some true`. -/
theorem optionBool_getD (o : Option Bool) : o.getD false = (o == some true) := by
  cases o with
  | none => rfl
  | some b => cases b <;> rfl

/-- When the title step reports `Some(true)`, the process object exists and
the stored title is exactly the requested name. -/
theorem titleArgvStep_title (e : Env) (name : String)
    (h : (titleArgvStep e name).2.1 = some true) :
    ((titleArgvStep e name).1).hasProcess = true ∧
    ((titleArgvStep e name).1).title = name := by
  unfold titleArgvStep at h ⊢
  by_cases hp : e.hasProcess
  · simp only [hp, if_true] at h ⊢
    cases hw : e.titleWrite name with
    | none => simp [hw] at h
    | some stored =>
      simp only [hw] at h ⊢
      have hs : stored = name := by
        have := Option.some.inj h
        exact eq_of_beq this
      subst hs
      cases hb : e.argv0Throws <;> simp [hb, hp]
  · simp [hp] at h

/-- The argv0 write never changes the title/success components of the title
step. -/
theorem titleArgvStep_argv0_frame (e : Env) (name : String) (b : Bool) :
    (titleArgvStep { e with argv0Throws := b } name).2 = (titleArgvStep e name).2 := by
  unfold titleArgvStep
  by_cases h : e.hasProcess
  · cases hw : e.titleWrite name <;> simp [h, hw]
  · simp [h]

/-- Both entry-point bodies assemble their return value in this common
shape, parameterised by the outcome of the native step; each body is
definitionally equal to `mkOutcome` applied to its own native-step result,
which lets equalities of the native step transport to whole results. -/
def mkOutcome (e : Env) (name : String) (p : Option Bool) : SetProcessNameResult × Env :=
  ({ success := (titleArgvStep e name).2.2 || p.getD false,
     processTitle := (titleArgvStep e name).2.1,
     prctl := p,
     runtime := detectRuntime e,
     platform := detectPlatform e }, (titleArgvStep e name).1)

theorem setProcessNameStr_eq_mkOutcome (e : Env) (name : String) :
    setProcessNameStr e name = mkOutcome e name ((setProcessNameStr e name).1.prctl) := rfl

theorem setProcessNameSyncStr_eq_mkOutcome (e : Env) (name : String) :
    setProcessNameSyncStr e name = mkOutcome e name ((setProcessNameSyncStr e name).1.prctl) := rfl

/-- C1: the claim states that `getCapabilities().canSetPrctl` is true iff a
subsequent `setProcessName` in the same environment sets `prctl` to
`Some(_)`.  This fails in both directions: on Linux under Node.js the
capability is reported (`canSetPrctl = true`) but `setProcessName` never
attempts the FFI path (`prctl = none`, the rename being delegated to
libuv's `process.title`), and on Linux under Deno the capability is denied
(`canSetPrctl = false`) yet the FFI path is attempted (`prctl = some _`). -/
theorem c1_counterexample :
    ((getCapabilities envNodeLinux).canSetPrctl = true ∧
      (setProcessNameStr envNodeLinux "my-service").1.prctl = none) ∧
    ((getCapabilities envDenoLinux).canSetPrctl = false ∧
      (setProcessNameStr envDenoLinux "my-service").1.prctl = some true) := by
  decide

/-- C1 amended: `canSetPrctl` holds iff the platform is Linux and the
runtime is Node or Bun, while `setProcessName` attempts the native step iff
the platform is Linux and the runtime is Bun or Deno; the capability query
and the attempt policy therefore agree exactly when it is not the case that
the platform is Linux with runtime Node or Deno. -/
theorem c1_amended (e : Env) (name : String) :
    ((getCapabilities e).canSetPrctl = ((setProcessNameStr e name).1.prctl).isSome) ↔
      ¬(detectPlatform e = "linux" ∧
        (detectRuntime e = "node" ∨ detectRuntime e = "deno")) := by
  have hcap : (getCapabilities e).canSetPrctl =
      (detectPlatform e == "linux" &&
        (detectRuntime e == "node" || detectRuntime e == "bun")) := rfl
  rw [hcap, setProcessNameStr_prctl]
  by_cases hp : detectPlatform e = "linux"
  · rcases runtime_cases e with h | h | h | h <;> simp [hp, h]
  · have hb : (detectPlatform e == "linux") = false := beq_eq_false_iff_ne.mpr hp
    simp [hb, hp]

/-- C2: the claim requires, on both entry points, `prctl = Some(_)` iff the
platform is Linux and the host exposes the native rename facility.  The
Bun runtime exposes that facility (through `bun:ffi`), yet on Linux the
synchronous entry point never attempts it, leaving `prctl = none`. -/
theorem c2_counterexample :
    detectPlatform envBunLinux = "linux" ∧
    hasNativeFFIBridge envBunLinux = true ∧
    (setProcessNameSyncStr envBunLinux "my-service").1.prctl = none := by
  decide

/-- C2 amended: for the async entry point, `prctl = Some(_)` iff the
platform is Linux and the runtime has an FFI bridge (Bun or Deno); for the
sync entry point, iff the platform is Linux and the runtime is Deno (the
Bun bridge needs an async import); on any non-Linux platform both entry
points leave `prctl = none`. -/
theorem c2_amended (e : Env) (name : String) :
    (((setProcessNameStr e name).1.prctl).isSome
        = (detectPlatform e == "linux" && hasNativeFFIBridge e)) ∧
    (((setProcessNameSyncStr e name).1.prctl).isSome
        = (detectPlatform e == "linux" && detectRuntime e == "deno")) ∧
    (detectPlatform e ≠ "linux" →
      (setProcessNameStr e name).1.prctl = none ∧
      (setProcessNameSyncStr e name).1.prctl = none) := by
  rw [setProcessNameStr_prctl, setProcessNameSyncStr_prctl]
  refine ⟨?_, ?_, ?_⟩
  · unfold hasNativeFFIBridge
    by_cases hp : detectPlatform e = "linux"
    · rcases runtime_cases e with h | h | h | h <;> simp [hp, h]
    · have hb : (detectPlatform e == "linux") = false := beq_eq_false_iff_ne.mpr hp
      simp [hb]
  · by_cases hp : detectPlatform e = "linux"
    · by_cases hr : detectRuntime e = "deno" <;> simp [hp, hr]
    · have hb : (detectPlatform e == "linux") = false := beq_eq_false_iff_ne.mpr hp
      simp [hb]
  · intro hp
    have hb : (detectPlatform e == "linux") = false := beq_eq_false_iff_ne.mpr hp
    simp [hb]

/-- C2 witness: on a Node.js-on-macOS host, both entry points leave
`prctl = none`. -/
theorem c2_witness :
    (setProcessNameStr envNodeDarwin "my-service").1.prctl = none ∧
    (setProcessNameSyncStr envNodeDarwin "my-service").1.prctl = none :=
  (c2_amended envNodeDarwin "my-service").2.2 (by decide)

/-- C8: `detectPlatform` on a Node.js host returns `process.platform`
verbatim, so a platform outside the declared
`'linux' | 'darwin' | 'win32' | 'unknown'` union (here `'freebsd'`, a
value `process.platform` can take) is returned as-is instead of the
`'unknown'` promised by the claim, by the function's own JSDoc and by the
`Platform` type in `src/index.d.ts`. -/
theorem c8_failing_input :
    detectPlatform envNodeFreebsd = "freebsd" ∧
    isDeclaredPlatform (detectPlatform envNodeFreebsd) = false := by
  decide

/-- Summing single-byte character sizes over a take-prefix is bounded by
the prefix length. -/
theorem sum_utf8_take_le (n : Nat) (l : List Char)
    (h : ∀ c ∈ l, Char.utf8Size c = 1) :
    ((l.take n).map Char.utf8Size).sum ≤ n := by
  induction l generalizing n with
  | nil => simp
  | cons c cs ih =>
    cases n with
    | zero => simp
    | succ m =>
      have hc : Char.utf8Size c = 1 := h c (by simp)
      have hrest := ih m (fun x hx => h x (by simp [hx]))
      simp only [List.take_succ_cons, List.map_cons, List.sum_cons, hc]
      omega

/-- C3: the claim's truncation behavior fails in its byte bound: the code
truncates to 15 *characters* and then UTF-8-encodes, so a name of 8
three-byte characters (8 ≤ 15, hence handed over untruncated) yields a
25-byte buffer, exceeding the claimed 16-byte maximum. -/
theorem c3_counterexample :
    "€€€€€€€€".length ≤ 15 ∧
    truncateForPrctl "€€€€€€€€" = "€€€€€€€€" ∧
    16 < bufferByteSize (prctlBuffer "€€€€€€€€") := by
  decide

/-- C3 amended: a name of at most 15 characters reaches the native
mechanism untruncated; a name of 16 or more characters is cut to exactly
its first 15 characters plus the NUL terminator (a 16-element buffer); and
the buffer is at most 16 bytes whenever every character of the name encodes
to a single byte (in particular for ASCII names) — for multi-byte
characters the buffer may exceed 16 bytes. -/
theorem c3_amended (name : String) :
    (name.length ≤ 15 → truncateForPrctl name = name) ∧
    (16 ≤ name.length →
      (truncateForPrctl name).length = 15 ∧
      prctlBuffer name = name.toList.take 15 ++ [Char.ofNat 0] ∧
      (prctlBuffer name).length = 16) ∧
    ((∀ c ∈ name.toList, Char.utf8Size c = 1) →
      bufferByteSize (prctlBuffer name) ≤ 16) := by
  refine ⟨?_, ?_, ?_⟩
  · intro h
    unfold truncateForPrctl
    have ht : name.toList.take 15 = name.toList := List.take_of_length_le h
    rw [ht]
    cases name
    rfl
  · intro h
    have hl : name.toList.length = name.length := rfl
    have hlen : (name.toList.take 15).length = 15 := by
      rw [List.length_take, hl]
      omega
    refine ⟨hlen, rfl, ?_⟩
    show (name.toList.take 15 ++ [Char.ofNat 0]).length = 16
    rw [List.length_append, hlen]
    rfl
  · intro h
    show ((name.toList.take 15 ++ [Char.ofNat 0]).map Char.utf8Size).sum ≤ 16
    rw [List.map_append, List.sum_append]
    have h1 := sum_utf8_take_le 15 name.toList h
    have h2 : ([Char.ofNat 0].map Char.utf8Size).sum = 1 := by decide
    omega

/-- C3 witness: a 5-character name is untruncated; a 17-character ASCII
name is cut to 15 characters with a 16-element, 16-byte buffer. -/
theorem c3_witness :
    truncateForPrctl "short" = "short" ∧
    (truncateForPrctl "abcdefghijklmnopq").length = 15 ∧
    (prctlBuffer "abcdefghijklmnopq").length = 16 ∧
    bufferByteSize (prctlBuffer "abcdefghijklmnopq") ≤ 16 :=
  ⟨(c3_amended "short").1 (by decide),
   ((c3_amended "abcdefghijklmnopq").2.1 (by decide)).1,
   ((c3_amended "abcdefghijklmnopq").2.1 (by decide)).2.2,
   (c3_amended "abcdefghijklmnopq").2.2 (by decide)⟩

/-- C4: both entry points reject exactly the non-string arguments with the
`TypeError` message, before any mechanism runs, and return an
`OutcomeRecord` (never an error) for every string argument including the
empty string. -/
theorem c4_invalid_argument (e : Env) (v : JSVal) :
    ((setProcessName e v).isOk = v.isStr) ∧
    ((setProcessNameSync e v).isOk = v.isStr) ∧
    (v.isStr = false →
      setProcessName e v = .error "Process name must be a string" ∧
      setProcessNameSync e v = .error "Process name must be a string") := by
  cases v <;>
    simp [setProcessName, setProcessNameSync, JSVal.isStr, Except.isOk, Except.toBool]

/-- C4 witness: the number `123` is rejected by both entry points
(scenario D), and the empty string is accepted by both (scenario C). -/
theorem c4_witness :
    (setProcessName envNodeLinux (JSVal.num 123) = .error "Process name must be a string" ∧
      setProcessNameSync envNodeLinux (JSVal.num 123) = .error "Process name must be a string") ∧
    (setProcessName envNodeLinux (JSVal.str "")).isOk = true :=
  ⟨(c4_invalid_argument envNodeLinux (JSVal.num 123)).2.2 rfl,
   (c4_invalid_argument envNodeLinux (JSVal.str "")).1⟩

theorem setProcessNameStr_success (e : Env) (name : String) :
    (setProcessNameStr e name).1.success
      = ((titleArgvStep e name).2.2 || ((setProcessNameStr e name).1.prctl).getD false) := rfl

theorem setProcessNameStr_processTitle (e : Env) (name : String) :
    (setProcessNameStr e name).1.processTitle = (titleArgvStep e name).2.1 := rfl

theorem setProcessNameSyncStr_success (e : Env) (name : String) :
    (setProcessNameSyncStr e name).1.success
      = ((titleArgvStep e name).2.2 || ((setProcessNameSyncStr e name).1.prctl).getD false) := rfl

theorem setProcessNameSyncStr_processTitle (e : Env) (name : String) :
    (setProcessNameSyncStr e name).1.processTitle = (titleArgvStep e name).2.1 := rfl

/-- C5: on both entry points, `success` is exactly "the title mechanism
reported `Some(true)` or the native mechanism reported `Some(true)`"; in
particular it is `false` when every attempted mechanism reported
`Some(false)` or nothing was attempted. -/
theorem c5_success_is_or (e : Env) (name : String) :
    ((setProcessNameStr e name).1.success
       = (((setProcessNameStr e name).1.processTitle == some true)
          || ((setProcessNameStr e name).1.prctl == some true))) ∧
    ((setProcessNameSyncStr e name).1.success
       = (((setProcessNameSyncStr e name).1.processTitle == some true)
          || ((setProcessNameSyncStr e name).1.prctl == some true))) := by
  constructor
  · rw [setProcessNameStr_success, setProcessNameStr_processTitle,
      titleArgvStep_success, optionBool_getD]
  · rw [setProcessNameSyncStr_success, setProcessNameSyncStr_processTitle,
      titleArgvStep_success, optionBool_getD]

/-- C6: the claim promises `getProcessName() = Some(n)` after any
successful generic-title write of `n`.  It fails for `n = ""`: the title
write of the empty string succeeds and reads back equal
(`processTitle = some true`), yet `getProcessName` tests `process.title`
for truthiness, so the empty title reads back as `none`. -/
theorem c6_counterexample :
    (setProcessNameStr envNodeLinux "").1.processTitle = some true ∧
    getProcessName (setProcessNameStr envNodeLinux "").2 = none := by
  decide

/-- C6 amended: for every non-empty name `n`, whenever a `setProcessName`
call reports `processTitle = some true`, reading the name back immediately
afterwards yields `some n`. -/
theorem c6_amended (e : Env) (name : String) (hne : name ≠ "")
    (h : (setProcessNameStr e name).1.processTitle = some true) :
    getProcessName (setProcessNameStr e name).2 = some name := by
  have h' : (titleArgvStep e name).2.1 = some true := h
  have ht := titleArgvStep_title e name h'
  show getProcessName (titleArgvStep e name).1 = some name
  unfold getProcessName
  rw [ht.1, ht.2]
  have hb : (name != "") = true := bne_iff_ne.mpr hne
  rw [hb]
  rfl

/-- C6 witness: writing `"demo-app"` on a Node.js-on-Linux host reads back
as `some "demo-app"`. -/
theorem c6_witness :
    getProcessName (setProcessNameStr envNodeLinux "demo-app").2 = some "demo-app" :=
  c6_amended envNodeLinux "demo-app" (by decide) (by decide)

/-- C10: `getProcessName` returns `none` whenever the current title is the
empty string — the truthiness test treats an empty title like an absent
facility — including immediately after `setProcessName("")` reported
`processTitle = some true`. -/
theorem c10_empty_title (e : Env) :
    (e.title = "" → getProcessName e = none) ∧
    ((setProcessNameStr e "").1.processTitle = some true →
      getProcessName (setProcessNameStr e "").2 = none) := by
  constructor
  · intro h
    unfold getProcessName
    simp [h]
  · intro h
    have ht := titleArgvStep_title e "" h
    show getProcessName (titleArgvStep e "").1 = none
    unfold getProcessName
    rw [ht.2]
    simp

/-- C10 witness: on a host whose current title is empty, and after an
accepted empty-title write, `getProcessName` returns `none`. -/
theorem c10_witness :
    getProcessName { envNodeLinux with title := "" } = none ∧
    getProcessName (setProcessNameStr envNodeLinux "").2 = none :=
  ⟨(c10_empty_title { envNodeLinux with title := "" }).1 rfl,
   (c10_empty_title envNodeLinux).2 (by decide)⟩

/-- C7: outside Linux-under-Bun, the two entry points return identical
results and identical final environments; on Linux under Bun, the sync
variant skips the native step (`prctl = none`, within the claim's "None or
Some(false)") where the async variant reports `Some(_)`, all other fields
and the final environment agreeing. -/
theorem c7_sync_refines_async (e : Env) (name : String) :
    (¬(detectPlatform e = "linux" ∧ detectRuntime e = "bun") →
      setProcessNameSyncStr e name = setProcessNameStr e name) ∧
    ((detectPlatform e = "linux" ∧ detectRuntime e = "bun") →
      (setProcessNameSyncStr e name).1.prctl = none ∧
      ((setProcessNameStr e name).1.prctl).isSome = true ∧
      (setProcessNameSyncStr e name).1.processTitle
        = (setProcessNameStr e name).1.processTitle ∧
      (setProcessNameSyncStr e name).1.runtime = (setProcessNameStr e name).1.runtime ∧
      (setProcessNameSyncStr e name).1.platform = (setProcessNameStr e name).1.platform ∧
      (setProcessNameSyncStr e name).2 = (setProcessNameStr e name).2) := by
  constructor
  · intro hne
    have hq : (setProcessNameSyncStr e name).1.prctl = (setProcessNameStr e name).1.prctl := by
      rw [setProcessNameSyncStr_prctl, setProcessNameStr_prctl]
      by_cases hp : detectPlatform e = "linux"
      · rcases runtime_cases e with h | h | h | h
        · simp [hp, h]
        · exact absurd ⟨hp, h⟩ hne
        · simp [hp, h]
        · simp [hp, h]
      · have hb : (detectPlatform e == "linux") = false := beq_eq_false_iff_ne.mpr hp
        simp [hb]
    calc setProcessNameSyncStr e name
        = mkOutcome e name ((setProcessNameSyncStr e name).1.prctl) :=
          setProcessNameSyncStr_eq_mkOutcome e name
      _ = mkOutcome e name ((setProcessNameStr e name).1.prctl) := by rw [hq]
      _ = setProcessNameStr e name := (setProcessNameStr_eq_mkOutcome e name).symm
  · rintro ⟨hp, hr⟩
    have h1 : (setProcessNameSyncStr e name).1.prctl = none := by
      rw [setProcessNameSyncStr_prctl]
      simp [hp, hr]
    have h2 : ((setProcessNameStr e name).1.prctl).isSome = true := by
      rw [setProcessNameStr_prctl]
      simp [hp, hr]
    exact ⟨h1, h2, rfl, rfl, rfl, rfl⟩

/-- C7 witness: on Linux under Node.js the two entry points agree exactly;
on Linux under Bun the sync variant leaves `prctl = none` while the async
variant reports `Some(_)`. -/
theorem c7_witness :
    setProcessNameSyncStr envNodeLinux "my-service"
      = setProcessNameStr envNodeLinux "my-service" ∧
    (setProcessNameSyncStr envBunLinux "my-service").1.prctl = none ∧
    ((setProcessNameStr envBunLinux "my-service").1.prctl).isSome = true :=
  ⟨(c7_sync_refines_async envNodeLinux "my-service").1 (by decide),
   ((c7_sync_refines_async envBunLinux "my-service").2 ⟨by decide, by decide⟩).1,
   ((c7_sync_refines_async envBunLinux "my-service").2 ⟨by decide, by decide⟩).2.1⟩

/-- C9: whether or not the cosmetic `process.argv0` assignment throws has
no effect on any field of the returned record, on either entry point (its
failure is swallowed; both bodies remain total on string inputs). -/
theorem c9_argv0_frame (e : Env) (name : String) (b : Bool) :
    (setProcessNameStr { e with argv0Throws := b } name).1
      = (setProcessNameStr e name).1 ∧
    (setProcessNameSyncStr { e with argv0Throws := b } name).1
      = (setProcessNameSyncStr e name).1 := by
  have hstep := titleArgvStep_argv0_frame e name b
  have h21 : (titleArgvStep { e with argv0Throws := b } name).2.1
      = (titleArgvStep e name).2.1 := congrArg Prod.fst hstep
  have h22 : (titleArgvStep { e with argv0Throws := b } name).2.2
      = (titleArgvStep e name).2.2 := congrArg Prod.snd hstep
  have hr : detectRuntime { e with argv0Throws := b } = detectRuntime e := rfl
  have hpf : detectPlatform { e with argv0Throws := b } = detectPlatform e := rfl
  constructor
  · have ha : (setProcessNameStr { e with argv0Throws := b } name).1.prctl
        = (setProcessNameStr e name).1.prctl := rfl
    show (mkOutcome { e with argv0Throws := b } name
          ((setProcessNameStr { e with argv0Throws := b } name).1.prctl)).1
        = (mkOutcome e name ((setProcessNameStr e name).1.prctl)).1
    rw [ha]
    simp only [mkOutcome]
    rw [h21, h22, hr, hpf]
  · have ha : (setProcessNameSyncStr { e with argv0Throws := b } name).1.prctl
        = (setProcessNameSyncStr e name).1.prctl := rfl
    show (mkOutcome { e with argv0Throws := b } name
          ((setProcessNameSyncStr { e with argv0Throws := b } name).1.prctl)).1
        = (mkOutcome e name ((setProcessNameSyncStr e name).1.prctl)).1
    rw [ha]
    simp only [mkOutcome]
    rw [h21, h22, hr, hpf]
